import Mathlib

/-!
Shallow embedding of the SSLProxyManager-Tauri frontend (Vue + TypeScript).
Each section embeds one component's pure logic: strings are `String`,
JS numbers appearing in the embedded code paths are `Int` (they hold
integer values in those paths), nullable fields are `Option`, and
functions that `throw` are modelled with `Except String`.
-/

/-- JS `s || d` on strings: the empty string is falsy. -/
def jsOrS (s d : String) : String := if s = "" then d else s

/-- JS `n || d` on numbers restricted to integers: `0` is falsy. -/
def jsOrI (n d : Int) : Int := if n = 0 then d else n

/-- JS `v.startsWith('/')`: the first character is `'/'`. -/
def strStartsSlash (s : String) : Bool :=
  match s.data with
  | [] => false
  | c :: _ => c = '/'

/-- JS `Math.ceil(x / 1000)` for an integer `x` (truncating float concerns
away: the embedded call sites feed integer millisecond differences). -/
def ceilDiv1000 (x : Int) : Int := -(Int.fdiv (-x) 1000)

/-- Strip leading and trailing whitespace from a character list. -/
def trimChars (cs : List Char) : List Char :=
  ((cs.dropWhile Char.isWhitespace).reverse.dropWhile Char.isWhitespace).reverse

/-- JS string trimming: leading and trailing whitespace removed (the
embedded inputs only ever carry ASCII whitespace, which
`Char.isWhitespace` covers). -/
def jsTrim (s : String) : String := String.mk (trimChars s.data)

/-- A plain decimal digit string parsed to a number; models the JS
`Number(portStr)` + `Number.isInteger` test of `isValidHostPort` on the
decimal strings the port field produces. -/
def digitsToNat? (cs : List Char) : Option Nat :=
  if cs.isEmpty then none
  else if cs.all Char.isDigit then
    some (cs.foldl (fun n c => n * 10 + (c.toNat - 48)) 0)
  else none

namespace AccessControl

/-- `isExpired` from `AccessControl.vue` (lines 385-388); the clock read
`Date.now() / 1000` is passed explicitly as `nowSec`. -/
def isExpired (nowSec expiresAt : Int) : Bool :=
  if expiresAt = 0 then false
  else decide (nowSec > expiresAt)

/-- The spec's activity predicate for a blacklist entry:
active iff `expires_at == 0 OR now < expires_at`. -/
def entryActive (nowSec expiresAt : Int) : Bool :=
  decide (expiresAt = 0) || decide (nowSec < expiresAt)

/-- The two values of `addForm.durationType` offered by the dialog. -/
inductive DurationType where
  | permanent
  | temporary
  deriving DecidableEq, Repr

structure AddForm where
  ip : String
  reason : String
  durationType : DurationType
  /-- `expiresAt` is `string | null` holding a millisecond timestamp;
  `Number(null) = 0` is modelled by `Option.getD _ 0`. -/
  expiresAt : Option Int
  deriving Repr

structure DBStatus where
  enabled : Bool
  initialized : Bool
  deriving Repr

/-- Outcome of `handleAdd`: either the submission aborts before calling the
backend, or `AddBlacklistEntry(ip, reason, durationSeconds)` is invoked. -/
inductive AddOutcome where
  | aborted
  | invoked (ip reason : String) (durationSeconds : Int)
  deriving DecidableEq, Repr

/-- `handleAdd` from `AccessControl.vue` (lines 457-472 and the preceding
guards). `dbStatus` is the result of `GetMetricsDBStatus` (`none` when the
call failed), `formValid` the result of `addFormRef.validate()`, and `nowMs`
the reading of `Date.now()`. -/
def handleAdd (dbStatus : Option DBStatus) (formValid : Bool)
    (form : AddForm) (nowMs : Int) : AddOutcome :=
  match dbStatus with
  | none => .aborted
  | some db =>
    if db.enabled = false then .aborted
    else if db.initialized = false then .aborted
    else if formValid = false then .aborted
    else
      match form.durationType with
      | .permanent => .invoked form.ip (jsOrS form.reason "") 0
      | .temporary =>
        if ceilDiv1000 (form.expiresAt.getD 0 - nowMs) ≤ 0 then .aborted
        else .invoked form.ip (jsOrS form.reason "")
          (ceilDiv1000 (form.expiresAt.getD 0 - nowMs))

end AccessControl

namespace ConfigCard

/-! Form state of `ConfigCard.vue` as read by its `getConfig`
(lines 825-978). Fields tested with `!== undefined` are `Option`;
JS numbers in these paths are `Int`. -/

structure RawUpstream where
  URL : String
  Weight : Int
  deriving DecidableEq, Repr

structure RawKV where
  Key : String
  Value : String
  deriving DecidableEq, Repr

structure RawRewrite where
  Pattern : String
  Replacement : String
  Enabled : Option Bool
  deriving DecidableEq, Repr

structure RawReplace where
  Find : String
  Replace : String
  UseRegex : Bool
  Enabled : Option Bool
  deriving DecidableEq, Repr

structure RawRoute where
  ID : String
  Enabled : Option Bool
  Host : String
  Path : String
  ProxyPassPath : String
  FollowRedirects : Bool
  SetHeadersList : List RawKV
  StaticDir : String
  ExcludeBasicAuth : Bool
  UrlRewriteRules : List RawRewrite
  RequestBodyReplace : List RawReplace
  ResponseBodyReplace : List RawReplace
  RemoveHeaders : List String
  Upstreams : List RawUpstream
  deriving DecidableEq, Repr

structure RawRule where
  ID : String
  Enabled : Option Bool
  ListenAddr : String
  ListenAddrs : List String
  SSLEnable : Bool
  CertFile : String
  KeyFile : String
  BasicAuthEnable : Bool
  BasicAuthUsername : String
  BasicAuthPassword : String
  BasicAuthForwardHeader : Bool
  RateLimitEnabled : Option Bool
  RateLimitRequestsPerSecond : Option Int
  RateLimitBurstSize : Option Int
  RateLimitBanSeconds : Option Int
  Routes : List RawRoute
  deriving DecidableEq, Repr

/-- `normalizePath` from `ConfigCard.vue` (lines 807-811). -/
def normalizePath (p : String) : String :=
  let v := (jsTrim p)
  if v = "" then "/"
  else if strStartsSlash v then v else "/" ++ v

/-- Insertion into a JS `Record<string, string>`: an existing key is
overwritten in place, a new key is appended. -/
def assocSet (m : List (String × String)) (k v : String) :
    List (String × String) :=
  if m.any (fun p => p.1 = k) then
    m.map (fun p => if p.1 = k then (k, v) else p)
  else m ++ [(k, v)]

/-- The `setHeaders` record built from `SetHeadersList`: blank (trimmed)
keys are skipped, values are trimmed. -/
def buildSetHeaders (l : List RawKV) : List (String × String) :=
  l.foldl (fun m kv =>
    if (jsTrim kv.Key) = "" then m
    else assocSet m (jsTrim kv.Key) (jsTrim kv.Value)) []

structure CUpstream where
  URL : String
  Weight : Int
  deriving DecidableEq, Repr

structure CRewrite where
  Pattern : String
  Replacement : String
  Enabled : Bool
  deriving DecidableEq, Repr

structure CReplace where
  Find : String
  Replace : String
  UseRegex : Bool
  Enabled : Bool
  deriving DecidableEq, Repr

structure CRoute where
  ID : String
  Enabled : Bool
  Host : String
  Path : String
  ProxyPassPath : String
  FollowRedirects : Bool
  SetHeaders : List (String × String)
  StaticDir : String
  ExcludeBasicAuth : Bool
  UrlRewriteRules : List CRewrite
  RequestBodyReplace : List CReplace
  ResponseBodyReplace : List CReplace
  RemoveHeaders : List String
  Upstreams : List CUpstream
  deriving DecidableEq, Repr

structure CRule where
  ID : String
  Enabled : Bool
  ListenAddr : String
  ListenAddrs : List String
  SSLEnable : Bool
  CertFile : String
  KeyFile : String
  BasicAuthEnable : Bool
  BasicAuthUsername : String
  BasicAuthPassword : String
  BasicAuthForwardHeader : Bool
  RateLimitEnabled : Option Bool
  RateLimitRequestsPerSecond : Option Int
  RateLimitBurstSize : Option Int
  RateLimitBanSeconds : Option Int
  Routes : List CRoute
  deriving DecidableEq, Repr

/-- The per-route cleaning step of `getConfig` (lines 849-890). -/
def cleanRoute (rt : RawRoute) : CRoute where
  ID := (jsTrim rt.ID)
  Enabled := rt.Enabled.getD true
  Host := (jsTrim rt.Host)
  Path := normalizePath rt.Path
  ProxyPassPath := if rt.ProxyPassPath = "" then "" else normalizePath rt.ProxyPassPath
  FollowRedirects := rt.FollowRedirects
  SetHeaders := buildSetHeaders rt.SetHeadersList
  StaticDir := (jsTrim rt.StaticDir)
  ExcludeBasicAuth := rt.ExcludeBasicAuth
  UrlRewriteRules :=
    (rt.UrlRewriteRules.filter (fun r => (jsTrim r.Pattern) ≠ "")).map (fun r =>
      { Pattern := (jsTrim r.Pattern), Replacement := (jsTrim r.Replacement)
        Enabled := r.Enabled.getD true })
  RequestBodyReplace :=
    (rt.RequestBodyReplace.filter (fun r => (jsTrim r.Find) ≠ "")).map (fun r =>
      { Find := (jsTrim r.Find), Replace := (jsTrim r.Replace)
        UseRegex := r.UseRegex, Enabled := r.Enabled.getD true })
  ResponseBodyReplace :=
    (rt.ResponseBodyReplace.filter (fun r => (jsTrim r.Find) ≠ "")).map (fun r =>
      { Find := (jsTrim r.Find), Replace := (jsTrim r.Replace)
        UseRegex := r.UseRegex, Enabled := r.Enabled.getD true })
  RemoveHeaders := (rt.RemoveHeaders.filter (fun h => (jsTrim h) ≠ "")).map jsTrim
  Upstreams :=
    (rt.Upstreams.filter (fun u => (jsTrim u.URL) ≠ "")).map (fun (u : RawUpstream) =>
      { URL := (jsTrim u.URL), Weight := if u.Weight > 0 then u.Weight else 1 })

/-- The per-rule cleaning step of `getConfig` (lines 829-890). -/
def cleanRule (r : RawRule) : CRule where
  ID := (jsTrim r.ID)
  Enabled := r.Enabled.getD true
  ListenAddr := (jsTrim r.ListenAddr)
  ListenAddrs :=
    ((if r.ListenAddrs.length > 0 then r.ListenAddrs else [r.ListenAddr]).map
      jsTrim).filter (fun s => s ≠ "")
  SSLEnable := r.SSLEnable
  CertFile := r.CertFile
  KeyFile := r.KeyFile
  BasicAuthEnable := r.BasicAuthEnable
  BasicAuthUsername := (jsTrim r.BasicAuthUsername)
  BasicAuthPassword := (jsTrim r.BasicAuthPassword)
  BasicAuthForwardHeader := r.BasicAuthForwardHeader
  RateLimitEnabled := r.RateLimitEnabled
  RateLimitRequestsPerSecond := r.RateLimitRequestsPerSecond
  RateLimitBurstSize := r.RateLimitBurstSize
  RateLimitBanSeconds := r.RateLimitBanSeconds
  Routes := r.Routes.map cleanRoute

/-- The per-route validation of `getConfig` (lines 898-911); `i`, `j` are
the 0-based rule and route indices used in the error messages. -/
def validateRoute (i j : Nat) (rt : CRoute) : Except String Unit :=
  if rt.Path = "" then
    .error ("configCard.routePathEmpty " ++ toString (i + 1) ++ " " ++ toString (j + 1))
  else if rt.Upstreams.length = 0 ∧ rt.StaticDir = "" then
    .error ("configCard.routeNoUpstreamOrStatic " ++ toString (i + 1) ++ " " ++ toString (j + 1))
  else .ok ()

def validateRoutes (i : Nat) (j : Nat) : List CRoute → Except String Unit
  | [] => .ok ()
  | rt :: rest =>
    match validateRoute i j rt with
    | .error e => .error e
    | .ok _ => validateRoutes i (j + 1) rest

/-- The per-rule validation of `getConfig` (lines 892-921). -/
def validateRule (i : Nat) (r : CRule) : Except String Unit :=
  if r.ListenAddr = "" then
    .error ("configCard.ruleListenAddrEmpty " ++ toString (i + 1))
  else if r.Routes.length = 0 then
    .error ("configCard.ruleNoRoutes " ++ toString (i + 1))
  else
    match validateRoutes i 0 r.Routes with
    | .error e => .error e
    | .ok _ =>
      if r.SSLEnable = true ∧ (r.CertFile = "" ∨ r.KeyFile = "") then
        .error ("configCard.ruleSSLCertEmpty " ++ toString (i + 1))
      else if r.BasicAuthEnable = true ∧ (r.BasicAuthUsername = "" ∨ r.BasicAuthPassword = "") then
        .error ("configCard.ruleBasicAuthEmpty " ++ toString (i + 1))
      else .ok ()

def validateRules (i : Nat) : List CRule → Except String Unit
  | [] => .ok ()
  | r :: rest =>
    match validateRule i r with
    | .error e => .error e
    | .ok _ => validateRules (i + 1) rest

structure MUpstream where
  url : String
  weight : Int
  deriving DecidableEq, Repr

structure MRewrite where
  pattern : String
  replacement : String
  enabled : Bool
  deriving DecidableEq, Repr

structure MReplace where
  find : String
  replace : String
  use_regex : Bool
  enabled : Bool
  deriving DecidableEq, Repr

structure MRoute where
  id : Option String
  enabled : Bool
  host : Option String
  path : String
  proxy_pass_path : Option String
  follow_redirects : Bool
  set_headers : List (String × String)
  static_dir : Option String
  exclude_basic_auth : Bool
  url_rewrite_rules : List MRewrite
  request_body_replace : List MReplace
  response_body_replace : List MReplace
  remove_headers : List String
  upstreams : List MUpstream
  deriving DecidableEq, Repr

structure MRule where
  id : Option String
  enabled : Bool
  listen_addr : String
  listen_addrs : List String
  ssl_enable : Bool
  cert_file : String
  key_file : String
  basic_auth_enable : Bool
  basic_auth_username : String
  basic_auth_password : String
  basic_auth_forward_header : Bool
  rate_limit_enabled : Option Bool
  rate_limit_requests_per_second : Option Int
  rate_limit_burst_size : Option Int
  rate_limit_window_seconds : Int
  rate_limit_ban_seconds : Option Int
  routes : List MRoute
  deriving DecidableEq, Repr

/-- The snake_case mapping of a cleaned route (lines 944-971). -/
def mapRoute (rt : CRoute) : MRoute where
  id := if rt.ID = "" then none else some rt.ID
  enabled := rt.Enabled
  host := if rt.Host = "" then none else some rt.Host
  path := rt.Path
  proxy_pass_path := if rt.ProxyPassPath = "" then none else some rt.ProxyPassPath
  follow_redirects := rt.FollowRedirects
  set_headers := rt.SetHeaders
  static_dir := if rt.StaticDir = "" then none else some rt.StaticDir
  exclude_basic_auth := rt.ExcludeBasicAuth
  url_rewrite_rules :=
    (rt.UrlRewriteRules.filter (fun r => (jsTrim r.Pattern) ≠ "")).map (fun r =>
      { pattern := (jsTrim r.Pattern), replacement := (jsTrim r.Replacement)
        enabled := r.Enabled })
  request_body_replace :=
    (rt.RequestBodyReplace.filter (fun r => (jsTrim r.Find) ≠ "")).map (fun r =>
      { find := (jsTrim r.Find), replace := (jsTrim r.Replace)
        use_regex := r.UseRegex, enabled := r.Enabled })
  response_body_replace :=
    (rt.ResponseBodyReplace.filter (fun r => (jsTrim r.Find) ≠ "")).map (fun r =>
      { find := (jsTrim r.Find), replace := (jsTrim r.Replace)
        use_regex := r.UseRegex, enabled := r.Enabled })
  remove_headers := (rt.RemoveHeaders.filter (fun h => (jsTrim h) ≠ "")).map jsTrim
  upstreams := rt.Upstreams.map (fun u => { url := u.URL, weight := u.Weight })

/-- The snake_case mapping of a cleaned rule (lines 924-973). The cleaned
rule carries no `RateLimitWindowSeconds` field, so that output is the
constant `1`. -/
def mapRule (r : CRule) : MRule where
  id := if r.ID = "" then none else some r.ID
  enabled := r.Enabled
  listen_addr := jsOrS (r.ListenAddrs.headD "") r.ListenAddr
  listen_addrs := r.ListenAddrs
  ssl_enable := r.SSLEnable
  cert_file := r.CertFile
  key_file := r.KeyFile
  basic_auth_enable := r.BasicAuthEnable
  basic_auth_username := jsOrS r.BasicAuthUsername ""
  basic_auth_password := jsOrS r.BasicAuthPassword ""
  basic_auth_forward_header := r.BasicAuthForwardHeader
  rate_limit_enabled := r.RateLimitEnabled
  rate_limit_requests_per_second := r.RateLimitRequestsPerSecond
  rate_limit_burst_size := r.RateLimitBurstSize
  rate_limit_window_seconds := 1
  rate_limit_ban_seconds := r.RateLimitBanSeconds
  routes := r.Routes.map mapRoute

/-- `getConfig` from `ConfigCard.vue` (lines 825-978): clean, validate
(throwing on the first violation), then map to the snake_case structure. -/
def getConfig (rules : List RawRule) : Except String (List MRule) :=
  let cleanedRules := rules.map cleanRule
  match validateRules 0 cleanedRules with
  | .error e => .error e
  | .ok _ => .ok (cleanedRules.map mapRule)

end ConfigCard

namespace WsProxy

structure RawWsRoute where
  path : String
  upstream_url : String
  deriving DecidableEq, Repr

structure RawWsRule where
  enabled : Bool
  listen_addr : String
  ssl_enable : Bool
  cert_file : String
  key_file : String
  routes : List RawWsRoute
  deriving DecidableEq, Repr

/-- `normalizePath` from `WsProxyConfig.vue` (lines 225-229); the source
duplicates the function of `ConfigCard.vue` verbatim. -/
def normalizePath (p : String) : String :=
  let v := (jsTrim p)
  if v = "" then "/"
  else if strStartsSlash v then v else "/" ++ v

structure CWsRoute where
  path : String
  upstream_url : String
  deriving DecidableEq, Repr

structure CWsRule where
  enabled : Bool
  listen_addr : String
  ssl_enable : Bool
  cert_file : String
  key_file : String
  routes : List CWsRoute
  deriving DecidableEq, Repr

/-- The cleaning step of `WsProxyConfig.vue`'s `getConfig` (lines 232-242). -/
def cleanRule (r : RawWsRule) : CWsRule where
  enabled := r.enabled
  listen_addr := (jsTrim r.listen_addr)
  ssl_enable := r.ssl_enable
  cert_file := r.cert_file
  key_file := r.key_file
  routes := r.routes.map (fun rt =>
    { path := normalizePath rt.path, upstream_url := (jsTrim rt.upstream_url) })

def validateRoutes (i j : Nat) : List CWsRoute → Except String Unit
  | [] => .ok ()
  | rt :: rest =>
    if rt.path = "" then
      .error ("WS 规则 " ++ toString (i + 1) ++ " / 路由 " ++ toString (j + 1) ++ "：Path 不能为空")
    else if rt.upstream_url = "" then
      .error ("WS 规则 " ++ toString (i + 1) ++ " / 路由 " ++ toString (j + 1) ++ "：上游地址不能为空")
    else validateRoutes i (j + 1) rest

/-- The validation loop of `WsProxyConfig.vue`'s `getConfig` (lines 244-265). -/
def validateRules (i : Nat) : List CWsRule → Except String Unit
  | [] => .ok ()
  | r :: rest =>
    if r.listen_addr = "" then
      .error ("WS 规则 " ++ toString (i + 1) ++ "：监听地址不能为空")
    else if r.ssl_enable = true ∧ (r.cert_file = "" ∨ r.key_file = "") then
      .error ("WS 规则 " ++ toString (i + 1) ++ "：启用 TLS 时证书/私钥不能为空")
    else if r.routes.length = 0 then
      .error ("WS 规则 " ++ toString (i + 1) ++ "：请至少配置一个 WS 路由")
    else
      match validateRoutes i 0 r.routes with
      | .error e => .error e
      | .ok _ => validateRules (i + 1) rest

structure WsOut where
  ws_proxy_enabled : Bool
  ws_proxy : List CWsRule
  deriving DecidableEq, Repr

/-- `getConfig` from `WsProxyConfig.vue` (lines 231-271). -/
def getConfig (wsProxyEnabled : Bool) (rules : List RawWsRule) :
    Except String WsOut :=
  let cleaned := rules.map cleanRule
  match validateRules 0 cleaned with
  | .error e => .error e
  | .ok _ => .ok { ws_proxy_enabled := wsProxyEnabled, ws_proxy := cleaned }

end WsProxy

namespace StreamProxy

structure RawServer where
  addr : String
  weight : Int
  /-- `max_fails` flows through `??`, so `null`/`undefined` is `none`. -/
  max_fails : Option Int
  fail_timeout : String
  deriving DecidableEq, Repr

structure RawUpstream where
  name : String
  hash_key : String
  consistent : Bool
  servers : List RawServer
  deriving DecidableEq, Repr

structure RawListenServer where
  enabled : Bool
  listen_port : Int
  proxy_pass : String
  proxy_connect_timeout : String
  proxy_timeout : String
  udp : Bool
  deriving DecidableEq, Repr

/-- Index of the last `':'` in a character list, as JS `lastIndexOf`. -/
def lastColonIdx (cs : List Char) : Option Nat :=
  match cs with
  | [] => none
  | c :: rest =>
    match lastColonIdx rest with
    | some i => some (i + 1)
    | none => if c = ':' then some 0 else none

/-- `isValidHostPort` from `StreamProxyConfig.vue` (lines 282-295). The JS
`Number(portStr)` + `Number.isInteger` test is modelled by `digitsToNat?`,
which accepts exactly the plain decimal strings the port field produces. -/
def isValidHostPort (v : String) : Bool :=
  let s := (jsTrim v)
  if s = "" then false
  else
    let cs := s.data
    match lastColonIdx cs with
    | none => false
    | some idx =>
      if idx = 0 ∨ idx = cs.length - 1 then false
      else
        let host := trimChars (cs.take idx)
        let portStr := trimChars (cs.drop (idx + 1))
        if host.isEmpty then false
        else
          match digitsToNat? portStr with
          | some port => decide (1 ≤ port) && decide (port ≤ 65535)
          | none => false

/-- Tail of the regex `/^\d+\s*[smh]?$/` after the leading digits:
whitespace followed by at most one unit character at the end. -/
def timeoutTailOk : List Char → Bool
  | [] => true
  | c :: cs =>
    if c.isWhitespace then timeoutTailOk cs
    else (c = 's' || c = 'm' || c = 'h') && cs.isEmpty

/-- `okTimeout` from `StreamProxyConfig.vue` (line 383):
`/^\d+\s*[smh]?$/.test((v || '').trim())`. -/
def okTimeout (v : String) : Bool :=
  let cs := trimChars v.data
  decide ((cs.takeWhile Char.isDigit).length > 0) &&
    timeoutTailOk (cs.dropWhile Char.isDigit)

structure CServer where
  addr : String
  weight : Int
  max_fails : Int
  fail_timeout : String
  deriving DecidableEq, Repr

structure CUpstream where
  name : String
  hash_key : String
  consistent : Bool
  servers : List CServer
  deriving DecidableEq, Repr

structure CListenServer where
  enabled : Bool
  listen_port : Int
  proxy_pass : String
  proxy_connect_timeout : String
  proxy_timeout : String
  udp : Bool
  deriving DecidableEq, Repr

/-- The upstream cleaning of `getConfig` (lines 298-310): trim, default
and drop servers with a blank address. -/
def cleanUpstream (u : RawUpstream) : CUpstream where
  name := (jsTrim u.name)
  hash_key := jsOrS (jsTrim (jsOrS u.hash_key "$remote_addr")) "$remote_addr"
  consistent := u.consistent
  servers :=
    (u.servers.map (fun (s : RawServer) =>
      ({ addr := (jsTrim s.addr)
         weight := jsOrI s.weight 1
         max_fails := s.max_fails.getD 1
         fail_timeout := jsOrS (jsTrim (jsOrS s.fail_timeout "30s")) "30s" } : CServer))).filter
      (fun s => s.addr ≠ "")

/-- The listen-server cleaning of `getConfig` (lines 312-319). -/
def cleanListenServer (s : RawListenServer) : CListenServer where
  enabled := s.enabled
  listen_port := jsOrI s.listen_port 0
  proxy_pass := (jsTrim s.proxy_pass)
  proxy_connect_timeout := jsOrS (jsTrim (jsOrS s.proxy_connect_timeout "300s")) "300s"
  proxy_timeout := jsOrS (jsTrim (jsOrS s.proxy_timeout "600s")) "600s"
  udp := s.udp

/-- The upstream validation loop of `getConfig` (lines 327-351);
`seen` is the `names` set accumulated so far. -/
def validateUpstreamServers (i : Nat) (uname : String) (j : Nat) :
    List CServer → Except String Unit
  | [] => .ok ()
  | sv :: rest =>
    if sv.addr = "" then
      .error ("Stream Upstream " ++ toString (i + 1) ++ "（" ++ uname ++ "）/ Server "
        ++ toString (j + 1) ++ "：addr 不能为空")
    else if isValidHostPort sv.addr = false then
      .error ("Stream Upstream " ++ toString (i + 1) ++ "（" ++ uname ++ "）/ Server "
        ++ toString (j + 1) ++ "：addr 格式错误（需要 host:port）：" ++ sv.addr)
    else validateUpstreamServers i uname (j + 1) rest

def validateUpstreams (i : Nat) (seen : List String) :
    List CUpstream → Except String Unit
  | [] => .ok ()
  | u :: rest =>
    if u.name = "" then
      .error ("Stream Upstream " ++ toString (i + 1) ++ "：name 不能为空")
    else if seen.contains u.name then
      .error ("Stream：upstream name 重复：" ++ u.name)
    else if u.servers.length = 0 then
      .error ("Stream Upstream " ++ toString (i + 1) ++ "（" ++ u.name
        ++ "）：请至少配置一个 server addr")
    else
      match validateUpstreamServers i u.name 0 u.servers with
      | .error e => .error e
      | .ok _ => validateUpstreams (i + 1) (seen ++ [u.name]) rest

/-- The `portKey` string built for a listen server:
`` `${sv.listen_port}/${sv.udp ? 'udp' : 'tcp'}` ``. -/
def portKey (sv : CListenServer) : String :=
  toString sv.listen_port ++ "/" ++ (if sv.udp then "udp" else "tcp")

/-- The listen-server validation loop of `getConfig` (lines 353-392):
disabled servers are skipped (`if (!sv.enabled) continue`). -/
def validateServers (names : List String) (used : List String) (i : Nat) :
    List CListenServer → Except String Unit
  | [] => .ok ()
  | sv :: rest =>
    if sv.enabled = false then validateServers names used (i + 1) rest
    else if sv.listen_port = 0 ∨ sv.listen_port < 1 ∨ sv.listen_port > 65535 then
      .error ("Stream Server " ++ toString (i + 1) ++ "：listen_port 必须为 1-65535")
    else if sv.proxy_pass = "" then
      .error ("Stream Server " ++ toString (i + 1) ++ "：proxy_pass 不能为空")
    else if (names.contains sv.proxy_pass) = false then
      .error ("Stream Server " ++ toString (i + 1) ++ "：proxy_pass 引用了不存在的 upstream："
        ++ sv.proxy_pass)
    else if used.contains (portKey sv) then
      .error ("Stream：监听端口冲突：" ++ portKey sv)
    else if sv.udp = false ∧ okTimeout sv.proxy_connect_timeout = false then
      .error ("Stream Server " ++ toString (i + 1) ++ "：proxy_connect_timeout 格式不正确："
        ++ sv.proxy_connect_timeout)
    else if sv.udp = false ∧ okTimeout sv.proxy_timeout = false then
      .error ("Stream Server " ++ toString (i + 1) ++ "：proxy_timeout 格式不正确："
        ++ sv.proxy_timeout)
    else validateServers names (used ++ [portKey sv]) (i + 1) rest

structure StreamConfig where
  enabled : Bool
  upstreams : List CUpstream
  servers : List CListenServer
  deriving DecidableEq, Repr

structure StreamOut where
  stream : StreamConfig
  deriving DecidableEq, Repr

/-- `getConfig` from `StreamProxyConfig.vue` (lines 296-399): clean, then
validate strictly only when stream proxying is enabled. After the first
loop the JS `names` set holds exactly the names of all cleaned upstreams,
which is what the listen-server loop receives here. -/
def getConfig (enabled : Bool) (upstreams : List RawUpstream)
    (servers : List RawListenServer) : Except String StreamOut :=
  let cleanedUpstreams := upstreams.map cleanUpstream
  let cleanedServers := servers.map cleanListenServer
  if enabled then
    if cleanedUpstreams.length = 0 then
      .error "Stream：请至少配置一个 upstream"
    else
      match validateUpstreams 0 [] cleanedUpstreams with
      | .error e => .error e
      | .ok _ =>
        if cleanedServers.length = 0 then
          .error "Stream：请至少配置一个监听 server"
        else
          match validateServers (cleanedUpstreams.map (fun u => u.name)) [] 0 cleanedServers with
          | .error e => .error e
          | .ok _ =>
            .ok { stream := { enabled := true, upstreams := cleanedUpstreams, servers := cleanedServers } }
  else
    .ok { stream := { enabled := false, upstreams := cleanedUpstreams, servers := cleanedServers } }

/-- The reference property stated by the spec sentence behind claim C2,
written from the spec's words for comparison with the code: every server's
`proxy_pass` names an existing upstream. -/
def specProxyPassOk (cfg : StreamConfig) : Bool :=
  cfg.servers.all (fun s =>
    s.proxy_pass ≠ "" && cfg.upstreams.any (fun u => u.name = s.proxy_pass))

end StreamProxy

namespace App

/-- The payload of the backend `server-start-error` event. -/
structure StartErrorPayload where
  listen_addr : String
  error : String
  deriving DecidableEq, Repr

/-- The pieces of `App.vue` state touched by the event handler: the
displayed status string, the recorded start time and the runtime timer,
plus the list of notifications shown so far. -/
structure AppState where
  status : String
  startTime : Option Int
  timerRunning : Bool
  notifications : List String
  deriving DecidableEq, Repr

/-- The notification text built by the handler:
`端口 ${listen_addr} 启动失败: ${error}`. -/
def startErrorMessage (p : StartErrorPayload) : String :=
  "端口 " ++ p.listen_addr ++ " 启动失败: " ++ p.error

/-- The `server-start-error` event handler of `App.vue` (lines 656-675):
it shows a non-closing error notification for the failing listener and
then sets the displayed status to `'stopped'`, clears the start time and
stops the runtime timer. -/
def handleServerStartError (st : AppState) (p : StartErrorPayload) : AppState where
  status := "stopped"
  startTime := none
  timerRunning := false
  notifications := st.notifications ++ [startErrorMessage p]

end App

namespace BaseConfig

/-- The saved configuration object as read by the Base Config page's
`onMounted` load (`src/unnamed/part_001`, lines 220-242). Absent fields
are `none`. The two body-size fields (`max_body_size`,
`max_response_body_size`) go through float rounding on load and are not
part of any compression field, so they are left out of this model. -/
structure ConfigData where
  auto_start : Option Bool
  show_realtime_logs : Option Bool
  realtime_logs_only_errors : Option Bool
  stream_proxy : Option Bool
  enable_http2 : Option Bool
  upstream_connect_timeout_ms : Option Int
  upstream_read_timeout_ms : Option Int
  upstream_pool_max_idle : Option Int
  upstream_pool_idle_timeout_sec : Option Int
  compression_enabled : Option Bool
  compression_gzip : Option Bool
  compression_brotli : Option Bool
  /-- Present in saved configurations but never read by the page. -/
  compression_min_length : Option Int
  compression_gzip_level : Option Int
  compression_brotli_level : Option Int
  deriving DecidableEq, Repr

/-- The page's form state (the refs of `src/unnamed/part_001`). -/
structure PageState where
  autoStart : Bool
  showRealtimeLogs : Bool
  realtimeLogsOnlyErrors : Bool
  streamProxy : Bool
  enableHttp2 : Bool
  upstreamConnectTimeoutMs : Int
  upstreamReadTimeoutMs : Int
  upstreamPoolMaxIdle : Int
  upstreamPoolIdleTimeoutSec : Int
  compressionEnabled : Bool
  compressionGzip : Bool
  compressionBrotli : Bool
  compressionGzipLevel : Int
  compressionBrotliLevel : Int
  deriving DecidableEq, Repr

/-- The `onMounted` load (`src/unnamed/part_001`, lines 220-242):
`!!x` patterns default to `false`, `x !== false` patterns default to
`true`, and `??` patterns take the documented default constants. -/
def loadConfig (c : ConfigData) : PageState where
  autoStart := c.auto_start.getD false
  showRealtimeLogs := c.show_realtime_logs ≠ some false
  realtimeLogsOnlyErrors := c.realtime_logs_only_errors.getD false
  streamProxy := c.stream_proxy ≠ some false
  enableHttp2 := c.enable_http2 ≠ some false
  upstreamConnectTimeoutMs := c.upstream_connect_timeout_ms.getD 5000
  upstreamReadTimeoutMs := c.upstream_read_timeout_ms.getD 30000
  upstreamPoolMaxIdle := c.upstream_pool_max_idle.getD 100
  upstreamPoolIdleTimeoutSec := c.upstream_pool_idle_timeout_sec.getD 60
  compressionEnabled := c.compression_enabled.getD false
  compressionGzip := c.compression_gzip.getD true
  compressionBrotli := c.compression_brotli.getD true
  compressionGzipLevel := c.compression_gzip_level.getD 6
  compressionBrotliLevel := c.compression_brotli_level.getD 6

/-- The object returned by the page's `getConfig` (`src/unnamed/part_001`,
lines 251-271), body-size fields omitted as in `ConfigData`. -/
structure OutConfig where
  auto_start : Bool
  show_realtime_logs : Bool
  realtime_logs_only_errors : Bool
  stream_proxy : Bool
  enable_http2 : Bool
  upstream_connect_timeout_ms : Int
  upstream_read_timeout_ms : Int
  upstream_pool_max_idle : Int
  upstream_pool_idle_timeout_sec : Int
  compression_enabled : Bool
  compression_gzip : Bool
  compression_brotli : Bool
  compression_min_length : Int
  compression_gzip_level : Int
  compression_brotli_level : Int
  deriving DecidableEq, Repr

/-- `getConfig` of the Base Config page (`src/unnamed/part_001`,
lines 251-271): `compression_min_length` is the constant
`DEFAULT_COMPRESSION_MIN_LENGTH = 1024`, not a form value. -/
def getConfig (st : PageState) : OutConfig where
  auto_start := st.autoStart
  show_realtime_logs := st.showRealtimeLogs
  realtime_logs_only_errors := st.realtimeLogsOnlyErrors
  stream_proxy := st.streamProxy
  enable_http2 := st.enableHttp2
  upstream_connect_timeout_ms := st.upstreamConnectTimeoutMs
  upstream_read_timeout_ms := st.upstreamReadTimeoutMs
  upstream_pool_max_idle := st.upstreamPoolMaxIdle
  upstream_pool_idle_timeout_sec := st.upstreamPoolIdleTimeoutSec
  compression_enabled := st.compressionEnabled
  compression_gzip := st.compressionGzip
  compression_brotli := st.compressionBrotli
  compression_min_length := 1024
  compression_gzip_level := st.compressionGzipLevel
  compression_brotli_level := st.compressionBrotliLevel

end BaseConfig

/-! Development lemmas about the embedded validators. -/

namespace ConfigCard

theorem validateRoute_ok {i j : Nat} {rt : CRoute}
    (h : validateRoute i j rt = .ok ()) :
    rt.Path ≠ "" ∧ ¬(rt.Upstreams.length = 0 ∧ rt.StaticDir = "") := by
  unfold validateRoute at h
  split at h
  · cases h
  · split at h
    · cases h
    · next h1 h2 => exact ⟨h1, h2⟩

theorem validateRoutes_ok {i : Nat} :
    ∀ {j : Nat} {rts : List CRoute}, validateRoutes i j rts = .ok () →
      ∀ rt ∈ rts, rt.Path ≠ "" ∧ ¬(rt.Upstreams.length = 0 ∧ rt.StaticDir = "") := by
  intro j rts
  induction rts generalizing j with
  | nil => intro _ rt hrt; cases hrt
  | cons r rest ih =>
    intro h rt hrt
    simp only [validateRoutes] at h
    cases hv : validateRoute i j r with
    | error e => rw [hv] at h; cases h
    | ok u =>
      cases u
      rw [hv] at h
      rcases List.mem_cons.mp hrt with rfl | hmem
      · exact validateRoute_ok hv
      · exact ih h rt hmem

theorem validateRule_ok {i : Nat} {r : CRule} (h : validateRule i r = .ok ()) :
    r.ListenAddr ≠ "" ∧
    (∀ rt ∈ r.Routes, rt.Path ≠ "" ∧ ¬(rt.Upstreams.length = 0 ∧ rt.StaticDir = "")) ∧
    ¬(r.SSLEnable = true ∧ (r.CertFile = "" ∨ r.KeyFile = "")) := by
  unfold validateRule at h
  split at h
  · cases h
  · next h1 =>
    split at h
    · cases h
    · cases hv : validateRoutes i 0 r.Routes with
      | error e => rw [hv] at h; cases h
      | ok u =>
        cases u
        rw [hv] at h
        simp only at h
        split at h
        · cases h
        · next h3 =>
          split at h
          · cases h
          · exact ⟨h1, validateRoutes_ok hv, h3⟩

theorem validateRules_ok :
    ∀ {i : Nat} {rs : List CRule}, validateRules i rs = .ok () →
      ∀ r ∈ rs,
        r.ListenAddr ≠ "" ∧
        (∀ rt ∈ r.Routes, rt.Path ≠ "" ∧ ¬(rt.Upstreams.length = 0 ∧ rt.StaticDir = "")) ∧
        ¬(r.SSLEnable = true ∧ (r.CertFile = "" ∨ r.KeyFile = "")) := by
  intro i rs
  induction rs generalizing i with
  | nil => intro _ r hr; cases hr
  | cons x rest ih =>
    intro h r hr
    simp only [validateRules] at h
    cases hv : validateRule i x with
    | error e => rw [hv] at h; cases h
    | ok u =>
      cases u
      rw [hv] at h
      rcases List.mem_cons.mp hr with rfl | hmem
      · exact validateRule_ok hv
      · exact ih h r hmem

theorem getConfig_ok {rules : List RawRule} {cfg : List MRule}
    (h : getConfig rules = .ok cfg) :
    validateRules 0 (rules.map cleanRule) = .ok () ∧
    cfg = (rules.map cleanRule).map mapRule := by
  simp only [getConfig] at h
  cases hv : validateRules 0 (rules.map cleanRule) with
  | error e => rw [hv] at h; cases h
  | ok u =>
    cases u
    rw [hv] at h
    cases h
    exact ⟨rfl, rfl⟩

theorem cleanRoute_upstreams {rt : RawRoute} :
    ∀ u ∈ (cleanRoute rt).Upstreams, u.URL ≠ "" ∧ 1 ≤ u.Weight := by
  intro u hu
  simp only [cleanRoute, List.mem_map, List.mem_filter] at hu
  obtain ⟨raw, ⟨_, hne⟩, rfl⟩ := hu
  refine ⟨by simpa using hne, ?_⟩
  by_cases hw : raw.Weight > 0
  · simp only [hw, if_pos]; omega
  · simp only [hw, if_neg, if_false]; omega

theorem cleanRule_listenAddrs {r : RawRule} :
    ∀ a ∈ (cleanRule r).ListenAddrs, a ≠ "" := by
  intro a ha
  simp only [cleanRule, List.mem_filter] at ha
  simpa using ha.2

end ConfigCard

theorem strStartsSlash_append_slash (s : String) :
    strStartsSlash ("/" ++ s) = true := by
  cases s with
  | mk data => rfl

theorem strStartsSlash_normalizePath (p : String) :
    strStartsSlash (ConfigCard.normalizePath p) = true := by
  simp only [ConfigCard.normalizePath]
  split
  · rfl
  · split
    · next h2 => exact h2
    · exact strStartsSlash_append_slash _

theorem wsNormalizePath_eq (p : String) :
    WsProxy.normalizePath p = ConfigCard.normalizePath p := rfl

namespace WsProxy

theorem wsValidateRules_ok :
    ∀ {i : Nat} {rs : List CWsRule}, validateRules i rs = .ok () →
      ∀ r ∈ rs, r.listen_addr ≠ "" ∧
        ¬(r.ssl_enable = true ∧ (r.cert_file = "" ∨ r.key_file = "")) := by
  intro i rs
  induction rs generalizing i with
  | nil => intro _ r hr; cases hr
  | cons x rest ih =>
    intro h r hr
    simp only [validateRules] at h
    split at h
    · cases h
    · next h1 =>
      split at h
      · cases h
      · next h2 =>
        split at h
        · cases h
        · cases hv : validateRoutes i 0 x.routes with
          | error e => rw [hv] at h; cases h
          | ok u =>
            cases u
            rw [hv] at h
            rcases List.mem_cons.mp hr with rfl | hmem
            · exact ⟨h1, h2⟩
            · exact ih h r hmem

theorem wsGetConfig_ok {wsEnabled : Bool} {rules : List RawWsRule} {out : WsOut}
    (h : getConfig wsEnabled rules = .ok out) :
    validateRules 0 (rules.map cleanRule) = .ok () ∧
    out.ws_proxy = rules.map cleanRule ∧
    out.ws_proxy_enabled = wsEnabled := by
  simp only [getConfig] at h
  cases hv : validateRules 0 (rules.map cleanRule) with
  | error e => rw [hv] at h; cases h
  | ok u =>
    cases u
    rw [hv] at h
    cases h
    exact ⟨rfl, rfl, rfl⟩

end WsProxy

namespace StreamProxy

theorem validateServers_ok :
    ∀ {names used : List String} {i : Nat} {ss : List CListenServer},
      validateServers names used i ss = .ok () →
      ∀ s ∈ ss, s.enabled = true →
        s.proxy_pass ≠ "" ∧ names.contains s.proxy_pass = true := by
  intro names used i ss
  induction ss generalizing used i with
  | nil => intro _ s hs; cases hs
  | cons x rest ih =>
    intro h s hs hen
    simp only [validateServers] at h
    split at h
    · next hdis =>
      rcases List.mem_cons.mp hs with rfl | hmem
      · rw [hen] at hdis; cases hdis
      · exact ih h s hmem hen
    · next hdis =>
      split at h
      · cases h
      · next h2 =>
        split at h
        · cases h
        · next h3 =>
          split at h
          · cases h
          · next h4 =>
            split at h
            · cases h
            · next h5 =>
              split at h
              · cases h
              · next h6 =>
                split at h
                · cases h
                · next h7 =>
                  rcases List.mem_cons.mp hs with rfl | hmem
                  · exact ⟨h3, by
                      cases hc : names.contains s.proxy_pass
                      · exact absurd hc h4
                      · rfl⟩
                  · exact ih h s hmem hen

theorem getConfig_enabled_ok {us : List RawUpstream} {ss : List RawListenServer}
    {out : StreamOut} (h : getConfig true us ss = .ok out) :
    out.stream.enabled = true ∧
    out.stream.upstreams = us.map cleanUpstream ∧
    out.stream.servers = ss.map cleanListenServer ∧
    validateServers ((us.map cleanUpstream).map (fun u => u.name)) [] 0
      (ss.map cleanListenServer) = .ok () := by
  simp only [getConfig, if_pos] at h
  split at h
  · cases h
  · cases hv : validateUpstreams 0 [] (us.map cleanUpstream) with
    | error e => rw [hv] at h; cases h
    | ok u =>
      cases u
      rw [hv] at h
      simp only at h
      split at h
      · cases h
      · cases hs : validateServers ((us.map cleanUpstream).map (fun u => u.name)) [] 0
            (ss.map cleanListenServer) with
        | error e => rw [hs] at h; cases h
        | ok u =>
          cases u
          rw [hs] at h
          cases h
          exact ⟨rfl, rfl, rfl, rfl⟩

end StreamProxy

/-! The claims. -/

/-- C1, counterexample: at the boundary instant `now == expires_at` (here
`now = expires_at = 5`) the entry is not active and `expires_at ≠ 0`, yet
`isExpired` returns `false`, refuting the claimed equivalence at the
boundary. -/
theorem spec_C1_cex :
    AccessControl.entryActive 5 5 = false ∧ (5 : Int) ≠ 0 ∧
    AccessControl.isExpired 5 5 = false := by decide

/-- C1, amended: away from the boundary instant, `isExpired(expires_at)`
returns `true` exactly when `expires_at ≠ 0` and the entry is not active
(`expires_at == 0 OR now < expires_at` fails); at the boundary
`now == expires_at` the code's strict `>` makes `isExpired` return
`false`. -/
theorem spec_C1 : ∀ nowSec expiresAt : Int,
    (nowSec ≠ expiresAt →
      (AccessControl.isExpired nowSec expiresAt = true ↔
        expiresAt ≠ 0 ∧ AccessControl.entryActive nowSec expiresAt = false)) ∧
    AccessControl.isExpired expiresAt expiresAt = false := by
  intro nowSec expiresAt
  constructor
  · intro hne
    by_cases h0 : expiresAt = 0
    · simp [AccessControl.isExpired, AccessControl.entryActive, h0]
    · simp only [AccessControl.isExpired, AccessControl.entryActive, if_neg h0,
        decide_eq_true_eq, Bool.or_eq_false_iff, decide_eq_false_iff_not, ne_eq]
      omega
  · by_cases h0 : expiresAt = 0
    · simp [AccessControl.isExpired, h0]
    · simp [AccessControl.isExpired, h0]

/-- C1, witness for the amended theorem at `now = 6`, `expires_at = 5`. -/
theorem spec_C1_witness :
    AccessControl.isExpired 6 5 = true ↔
      (5 : Int) ≠ 0 ∧ AccessControl.entryActive 6 5 = false :=
  (spec_C1 6 5).1 (by decide)

/-- C8, counterexample: a single `server-start-error` event received while
the UI shows `running` resets the displayed status to `stopped`, refuting
the claim that the status is never reset by a single listener failure. -/
theorem spec_C8_cex :
    (App.handleServerStartError ⟨"running", some 100, true, []⟩
      ⟨"127.0.0.1:8080", "bind: address already in use"⟩).status = "stopped" := rfl

/-- C8, amended: the error is surfaced per listener (the notification
names the failing `listen_addr` and its error, and existing notifications
are kept), but the handler always resets the displayed status to
`stopped`, clears the start time and stops the runtime timer, even though
the other listeners proceed. -/
theorem spec_C8 : ∀ (st : App.AppState) (p : App.StartErrorPayload),
    (App.handleServerStartError st p).status = "stopped" ∧
    (App.handleServerStartError st p).startTime = none ∧
    (App.handleServerStartError st p).timerRunning = false ∧
    (App.handleServerStartError st p).notifications =
      st.notifications ++ [App.startErrorMessage p] := by
  intro st p
  exact ⟨rfl, rfl, rfl, rfl⟩

/-- C10: the Base Config page's `getConfig` returns
`compression_min_length = 1024` unconditionally; the loaded
`compression_min_length` is never read, so the load-then-save round trip
is not the identity on that field, while the other compression fields the
page edits round-trip to their loaded values. -/
theorem spec_C10 : ∀ c : BaseConfig.ConfigData,
    (BaseConfig.getConfig (BaseConfig.loadConfig c)).compression_min_length = 1024 ∧
    (BaseConfig.getConfig (BaseConfig.loadConfig c)).compression_enabled =
      c.compression_enabled.getD false ∧
    (BaseConfig.getConfig (BaseConfig.loadConfig c)).compression_gzip =
      c.compression_gzip.getD true ∧
    (BaseConfig.getConfig (BaseConfig.loadConfig c)).compression_brotli =
      c.compression_brotli.getD true ∧
    (BaseConfig.getConfig (BaseConfig.loadConfig c)).compression_gzip_level =
      c.compression_gzip_level.getD 6 ∧
    (BaseConfig.getConfig (BaseConfig.loadConfig c)).compression_brotli_level =
      c.compression_brotli_level.getD 6 ∧
    (∀ n : Int, c.compression_min_length = some n → n ≠ 1024 →
      (BaseConfig.getConfig (BaseConfig.loadConfig c)).compression_min_length ≠ n) := by
  intro c
  refine ⟨rfl, rfl, rfl, rfl, rfl, rfl, ?_⟩
  intro n _ hne
  show (1024 : Int) ≠ n
  exact fun h => hne h.symm

/-- C10, witness: a configuration saved with `compression_min_length =
2048` comes back from the round trip with `1024` instead. -/
theorem spec_C10_witness :
    (BaseConfig.getConfig (BaseConfig.loadConfig
      ⟨some true, some true, some false, some true, some true, some 5000,
       some 30000, some 100, some 60, some true, some true, some false,
       some 2048, some 9, some 11⟩)).compression_min_length ≠ 2048 :=
  (spec_C10 _).2.2.2.2.2.2 2048 rfl (by decide)

/-- C9: whenever `handleAdd` reaches the backend call, `duration_sec = 0`
exactly when the permanent option is selected; for a temporary expiry the
invoked duration is `ceil((expires_at_ms - now_ms)/1000)` and strictly
positive, and a non-positive value aborts the submission without invoking
the command. -/
theorem spec_C9 :
    (∀ (db : Option AccessControl.DBStatus) (fv : Bool)
        (form : AccessControl.AddForm) (now : Int) (ip reason : String) (d : Int),
      AccessControl.handleAdd db fv form now = .invoked ip reason d →
        (d = 0 ↔ form.durationType = .permanent) ∧
        (form.durationType = .temporary →
          d = ceilDiv1000 (form.expiresAt.getD 0 - now) ∧ 0 < d)) ∧
    (∀ (db : Option AccessControl.DBStatus) (fv : Bool)
        (form : AccessControl.AddForm) (now : Int),
      form.durationType = .temporary →
      ceilDiv1000 (form.expiresAt.getD 0 - now) ≤ 0 →
      AccessControl.handleAdd db fv form now = .aborted) := by
  constructor
  · intro db fv form now ip reason d h
    obtain ⟨fip, freason, fdt, fexp⟩ := form
    cases db with
    | none => cases h
    | some dbv =>
      simp only [AccessControl.handleAdd] at h
      split at h
      · cases h
      · split at h
        · cases h
        · split at h
          · cases h
          · cases fdt with
            | permanent =>
              simp only at h
              cases h
              simp
            | temporary =>
              simp only at h
              split at h
              · cases h
              · next hpos =>
                cases h
                refine ⟨?_, fun _ => ⟨rfl, by omega⟩⟩
                constructor
                · intro h0; omega
                · intro hc; cases hc
  · intro db fv form now hdt hle
    obtain ⟨fip, freason, fdt, fexp⟩ := form
    simp only at hdt
    subst hdt
    cases db with
    | none => rfl
    | some dbv =>
      simp only [AccessControl.handleAdd]
      split
      · rfl
      · split
        · rfl
        · split
          · rfl
          · simp only at hle ⊢

/-- C9, witness: a permanent submission with the database available and
the form valid invokes the command with duration 0. -/
theorem spec_C9_witness :
    AccessControl.handleAdd (some ⟨true, true⟩) true
        ⟨"10.0.0.1", "abuse", .permanent, none⟩ 1700000000000 =
      .invoked "10.0.0.1" "abuse" 0 ∧
    ((0 : Int) = 0 ↔
      (AccessControl.AddForm.mk "10.0.0.1" "abuse" .permanent none).durationType =
        .permanent) :=
  ⟨by decide,
   (spec_C9.1 (some ⟨true, true⟩) true ⟨"10.0.0.1", "abuse", .permanent, none⟩
      1700000000000 "10.0.0.1" "abuse" 0 (by decide)).1⟩

/-- C5: `normalizePath` always yields a path whose first character is
`'/'` — blank input maps to `"/"`, a trimmed input already starting with
`'/'` is returned unchanged, anything else gets `'/'` prepended — the
`WsProxyConfig` copy coincides with the `ConfigCard` one, and every route
path in a configuration produced by `ConfigCard.getConfig` or
`WsProxy.getConfig` begins with `'/'`. -/
theorem spec_C5 :
    (∀ p, strStartsSlash (ConfigCard.normalizePath p) = true) ∧
    (∀ p, (jsTrim p) = "" → ConfigCard.normalizePath p = "/") ∧
    (∀ p, strStartsSlash (jsTrim p) = true → ConfigCard.normalizePath p = (jsTrim p)) ∧
    (∀ p, (jsTrim p) ≠ "" → strStartsSlash (jsTrim p) = false →
      ConfigCard.normalizePath p = "/" ++ (jsTrim p)) ∧
    (∀ p, WsProxy.normalizePath p = ConfigCard.normalizePath p) ∧
    (∀ (rules : List ConfigCard.RawRule) (cfg : List ConfigCard.MRule),
      ConfigCard.getConfig rules = .ok cfg →
      ∀ r ∈ cfg, ∀ rt ∈ r.routes, strStartsSlash rt.path = true) ∧
    (∀ (wsEnabled : Bool) (rules : List WsProxy.RawWsRule) (out : WsProxy.WsOut),
      WsProxy.getConfig wsEnabled rules = .ok out →
      ∀ r ∈ out.ws_proxy, ∀ rt ∈ r.routes, strStartsSlash rt.path = true) := by
  refine ⟨strStartsSlash_normalizePath, ?_, ?_, ?_, fun p => rfl, ?_, ?_⟩
  · intro p h
    simp [ConfigCard.normalizePath, h]
  · intro p h
    have hne : (jsTrim p) ≠ "" := by
      intro h0
      rw [h0] at h
      cases h
    simp [ConfigCard.normalizePath, hne, h]
  · intro p hne h
    simp [ConfigCard.normalizePath, hne, h]
  · intro rules cfg hok r hr rt hrt
    obtain ⟨hval, rfl⟩ := ConfigCard.getConfig_ok hok
    rw [List.map_map] at hr
    obtain ⟨raw, hraw, rfl⟩ := List.mem_map.mp hr
    have hroutes : ((ConfigCard.mapRule ∘ ConfigCard.cleanRule) raw).routes
        = (raw.Routes.map ConfigCard.cleanRoute).map ConfigCard.mapRoute := by
      simp [Function.comp, ConfigCard.mapRule, ConfigCard.cleanRule]
    rw [hroutes, List.map_map] at hrt
    obtain ⟨rr, hrr, rfl⟩ := List.mem_map.mp hrt
    have hp : ((ConfigCard.mapRoute ∘ ConfigCard.cleanRoute) rr).path
        = ConfigCard.normalizePath rr.Path := by
      simp [Function.comp, ConfigCard.mapRoute, ConfigCard.cleanRoute]
    rw [hp]
    exact strStartsSlash_normalizePath _
  · intro wsEnabled rules out hok r hr rt hrt
    obtain ⟨hval, hproxy, -⟩ := WsProxy.wsGetConfig_ok hok
    rw [hproxy] at hr
    obtain ⟨raw, hraw, rfl⟩ := List.mem_map.mp hr
    have hroutes : (WsProxy.cleanRule raw).routes
        = raw.routes.map (fun rt =>
            ({ path := WsProxy.normalizePath rt.path,
               upstream_url := (jsTrim rt.upstream_url) } : WsProxy.CWsRoute)) := by
      simp [WsProxy.cleanRule]
    rw [hroutes] at hrt
    obtain ⟨rr, hrr, rfl⟩ := List.mem_map.mp hrt
    exact strStartsSlash_normalizePath _

/-- C5, witness: the three `normalizePath` cases at concrete inputs, and a
concrete one-rule configuration whose route path `"api"` comes back as a
path starting with `'/'`. -/
theorem spec_C5_witness :
    ConfigCard.normalizePath " " = "/" ∧
    ConfigCard.normalizePath "/api" = "/api" ∧
    ConfigCard.normalizePath "api" = "/" ++ "api" ∧
    strStartsSlash ((ConfigCard.mapRoute (ConfigCard.cleanRoute
      ⟨"", none, "", "api", "", false, [], "/www", false, [], [], [], [], []⟩)).path) = true :=
  ⟨spec_C5.2.1 " " (by decide),
   spec_C5.2.2.1 "/api" (by decide),
   spec_C5.2.2.2.1 "api" (by decide) (by decide),
   spec_C5.2.2.2.2.2.1
     [⟨"", none, "127.0.0.1:9100", [], false, "", "", false, "", "", false,
       none, none, none, none,
       [⟨"", none, "", "api", "", false, [], "/www", false, [], [], [], [], []⟩]⟩]
     [ConfigCard.mapRule (ConfigCard.cleanRule
       ⟨"", none, "127.0.0.1:9100", [], false, "", "", false, "", "", false,
        none, none, none, none,
        [⟨"", none, "", "api", "", false, [], "/www", false, [], [], [], [], []⟩]⟩)]
     (by rfl) _ (List.Mem.head _) _ (List.Mem.head _)⟩

/-- C3, counterexample: a rule whose `ListenAddrs` entries are all blank
but whose legacy `ListenAddr` field is non-blank passes validation, and
`getConfig` returns it as an enabled rule with `listen_addrs = []`. -/
theorem spec_C3_cex :
    (ConfigCard.getConfig
      [⟨"", none, "127.0.0.1:8080", [" "], false, "", "", false, "", "",
        false, none, none, none, none,
        [⟨"", none, "", "/", "", false, [], "/www", false, [], [], [], [], []⟩]⟩]).map
      (fun rs => rs.map (fun r => (r.enabled, r.listen_addrs)))
      = .ok [(true, ([] : List String))] := by rfl

/-- C3, amended: `getConfig` validates only the legacy singleton
`ListenAddr`; every rule in a returned configuration has a non-empty
`listen_addr` and only non-blank entries in `listen_addrs`, but
`listen_addrs` itself may be empty when all `ListenAddrs` entries were
blank (the singleton is then the fallback). -/
theorem spec_C3 : ∀ (rules : List ConfigCard.RawRule) (cfg : List ConfigCard.MRule),
    ConfigCard.getConfig rules = .ok cfg →
    ∀ r ∈ cfg, r.listen_addr ≠ "" ∧ (∀ a ∈ r.listen_addrs, a ≠ "") := by
  intro rules cfg hok r hr
  obtain ⟨hval, rfl⟩ := ConfigCard.getConfig_ok hok
  rw [List.map_map] at hr
  obtain ⟨raw, hraw, rfl⟩ := List.mem_map.mp hr
  have hv := ConfigCard.validateRules_ok hval _ (List.mem_map.mpr ⟨raw, hraw, rfl⟩)
  constructor
  · show jsOrS ((ConfigCard.cleanRule raw).ListenAddrs.headD "")
      (ConfigCard.cleanRule raw).ListenAddr ≠ ""
    cases hL : (ConfigCard.cleanRule raw).ListenAddrs with
    | nil =>
      simpa [jsOrS] using hv.1
    | cons a as =>
      have ha : a ≠ "" :=
        ConfigCard.cleanRule_listenAddrs a (by rw [hL]; exact List.Mem.head _)
      simp [jsOrS, ha]
  · intro a ha
    exact ConfigCard.cleanRule_listenAddrs a ha

/-- C3, witness for the amended theorem on a one-rule configuration. -/
theorem spec_C3_witness :
    (ConfigCard.mapRule (ConfigCard.cleanRule
      ⟨"", none, "127.0.0.1:8080", [" "], false, "", "", false, "", "",
        false, none, none, none, none,
        [⟨"", none, "", "/", "", false, [], "/www", false, [], [], [], [], []⟩]⟩)).listen_addr
      ≠ "" :=
  (spec_C3
    [⟨"", none, "127.0.0.1:8080", [" "], false, "", "", false, "", "",
      false, none, none, none, none,
      [⟨"", none, "", "/", "", false, [], "/www", false, [], [], [], [], []⟩]⟩]
    [ConfigCard.mapRule (ConfigCard.cleanRule
      ⟨"", none, "127.0.0.1:8080", [" "], false, "", "", false, "", "",
        false, none, none, none, none,
        [⟨"", none, "", "/", "", false, [], "/www", false, [], [], [], [], []⟩]⟩)]
    (by rfl) _ (List.Mem.head _)).1

/-- C4: every configuration returned by `ConfigCard.getConfig` has, in
every route of every rule, at least one upstream with a non-empty URL or
a non-empty `static_dir`; a route with neither makes `getConfig` throw
instead. -/
theorem spec_C4 : ∀ (rules : List ConfigCard.RawRule) (cfg : List ConfigCard.MRule),
    ConfigCard.getConfig rules = .ok cfg →
    ∀ r ∈ cfg, ∀ rt ∈ r.routes,
      (∃ u ∈ rt.upstreams, u.url ≠ "") ∨
      (∃ d, rt.static_dir = some d ∧ d ≠ "") := by
  intro rules cfg hok r hr rt hrt
  obtain ⟨hval, rfl⟩ := ConfigCard.getConfig_ok hok
  rw [List.map_map] at hr
  obtain ⟨raw, hraw, rfl⟩ := List.mem_map.mp hr
  have hv := (ConfigCard.validateRules_ok hval _ (List.mem_map.mpr ⟨raw, hraw, rfl⟩)).2.1
  have hroutes : ((ConfigCard.mapRule ∘ ConfigCard.cleanRule) raw).routes
      = (raw.Routes.map ConfigCard.cleanRoute).map ConfigCard.mapRoute := by
    simp [Function.comp, ConfigCard.mapRule, ConfigCard.cleanRule]
  rw [hroutes, List.map_map] at hrt
  obtain ⟨rr, hrr, rfl⟩ := List.mem_map.mp hrt
  have hcrt : ConfigCard.cleanRoute rr ∈ (ConfigCard.cleanRule raw).Routes := by
    show ConfigCard.cleanRoute rr ∈ raw.Routes.map ConfigCard.cleanRoute
    exact List.mem_map.mpr ⟨rr, hrr, rfl⟩
  have hv2 := (hv _ hcrt).2
  cases hU : (ConfigCard.cleanRoute rr).Upstreams with
  | nil =>
    right
    have hsd : (ConfigCard.cleanRoute rr).StaticDir ≠ "" := by
      intro h0
      exact hv2 ⟨by rw [hU]; rfl, h0⟩
    refine ⟨(ConfigCard.cleanRoute rr).StaticDir, ?_, hsd⟩
    show (if (ConfigCard.cleanRoute rr).StaticDir = "" then none
      else some (ConfigCard.cleanRoute rr).StaticDir) = _
    rw [if_neg hsd]
  | cons u0 us =>
    left
    have hu0 : u0 ∈ (ConfigCard.cleanRoute rr).Upstreams := by
      rw [hU]; exact List.Mem.head _
    have hurl := (ConfigCard.cleanRoute_upstreams u0 hu0).1
    refine ⟨⟨u0.URL, u0.Weight⟩, ?_, hurl⟩
    show _ ∈ (ConfigCard.cleanRoute rr).Upstreams.map
      (fun u => ({ url := u.URL, weight := u.Weight } : ConfigCard.MUpstream))
    exact List.mem_map.mpr ⟨u0, hu0, rfl⟩

/-- C4, witness on a one-rule, one-route configuration with a static
directory and no upstream. -/
theorem spec_C4_witness :
    (∃ u ∈ (ConfigCard.mapRoute (ConfigCard.cleanRoute
        ⟨"", none, "", "/", "", false, [], "/www", false, [], [], [], [], []⟩)).upstreams,
      u.url ≠ "") ∨
    (∃ d, (ConfigCard.mapRoute (ConfigCard.cleanRoute
        ⟨"", none, "", "/", "", false, [], "/www", false, [], [], [], [], []⟩)).static_dir
        = some d ∧ d ≠ "") :=
  spec_C4
    [⟨"", none, "127.0.0.1:8080", [], false, "", "", false, "", "",
      false, none, none, none, none,
      [⟨"", none, "", "/", "", false, [], "/www", false, [], [], [], [], []⟩]⟩]
    [ConfigCard.mapRule (ConfigCard.cleanRule
      ⟨"", none, "127.0.0.1:8080", [], false, "", "", false, "", "",
        false, none, none, none, none,
        [⟨"", none, "", "/", "", false, [], "/www", false, [], [], [], [], []⟩]⟩)]
    (by rfl) _ (List.Mem.head _) _ (List.Mem.head _)

/-- C6, counterexample: a stream upstream member entered with weight `-5`
passes `StreamProxyConfig.getConfig` validation (only `0` is replaced by
the default `1`, via `Number(s.weight || 1)`) and appears in the returned
configuration with weight `-5 < 1`. -/
theorem spec_C6_cex :
    (StreamProxy.getConfig true
        [⟨"up", "", false, [⟨"127.0.0.1:9000", -5, none, ""⟩]⟩]
        [⟨true, 8080, "up", "", "", false⟩]).map
      (fun o => o.stream.upstreams.map (fun u => u.servers.map (fun s => s.weight)))
      = .ok [[-5]] ∧ ¬((1 : Int) ≤ -5) :=
  ⟨by rfl, by decide⟩

/-- C6, amended: every HTTP route upstream in a configuration returned by
`ConfigCard.getConfig` has weight ≥ 1 (non-positive form values are
clamped to 1); the stream side does not satisfy the claim, since
`StreamProxyConfig.getConfig` only replaces a weight of `0` and passes
any other value through. -/
theorem spec_C6 : ∀ (rules : List ConfigCard.RawRule) (cfg : List ConfigCard.MRule),
    ConfigCard.getConfig rules = .ok cfg →
    ∀ r ∈ cfg, ∀ rt ∈ r.routes, ∀ u ∈ rt.upstreams, 1 ≤ u.weight := by
  intro rules cfg hok r hr rt hrt u hu
  obtain ⟨hval, rfl⟩ := ConfigCard.getConfig_ok hok
  rw [List.map_map] at hr
  obtain ⟨raw, hraw, rfl⟩ := List.mem_map.mp hr
  have hroutes : ((ConfigCard.mapRule ∘ ConfigCard.cleanRule) raw).routes
      = (raw.Routes.map ConfigCard.cleanRoute).map ConfigCard.mapRoute := by
    simp [Function.comp, ConfigCard.mapRule, ConfigCard.cleanRule]
  rw [hroutes, List.map_map] at hrt
  obtain ⟨rr, hrr, rfl⟩ := List.mem_map.mp hrt
  have hups : ((ConfigCard.mapRoute ∘ ConfigCard.cleanRoute) rr).upstreams
      = (ConfigCard.cleanRoute rr).Upstreams.map
          (fun u => ({ url := u.URL, weight := u.Weight } : ConfigCard.MUpstream)) := rfl
  rw [hups] at hu
  obtain ⟨cu, hcu, rfl⟩ := List.mem_map.mp hu
  exact (ConfigCard.cleanRoute_upstreams cu hcu).2

/-- C6, witness for the amended theorem: an upstream entered with weight
`-7` comes back clamped to a weight ≥ 1. -/
theorem spec_C6_witness :
    (1 : Int) ≤ (ConfigCard.MUpstream.mk "http://127.0.0.1:9200" 1).weight :=
  spec_C6
    [⟨"", none, "127.0.0.1:8080", [], false, "", "", false, "", "",
      false, none, none, none, none,
      [⟨"", none, "", "/", "", false, [], "", false, [], [], [], [],
        [⟨"http://127.0.0.1:9200", -7⟩]⟩]⟩]
    [ConfigCard.mapRule (ConfigCard.cleanRule
      ⟨"", none, "127.0.0.1:8080", [], false, "", "", false, "", "",
        false, none, none, none, none,
        [⟨"", none, "", "/", "", false, [], "", false, [], [], [], [],
          [⟨"http://127.0.0.1:9200", -7⟩]⟩]⟩)]
    (by rfl) _ (List.Mem.head _) _ (List.Mem.head _) _ (List.Mem.head _)

/-- C7: TLS requires both cert and key. Every TLS-enabled rule in a
configuration returned by `ConfigCard.getConfig` or `WsProxy.getConfig`
carries a non-empty cert path and a non-empty key path, and when any rule
has SSL enabled with an empty cert or key path, the respective
`getConfig` throws instead of returning a configuration. -/
theorem spec_C7 :
    (∀ (rules : List ConfigCard.RawRule) (cfg : List ConfigCard.MRule),
      ConfigCard.getConfig rules = .ok cfg →
      ∀ r ∈ cfg, r.ssl_enable = true → r.cert_file ≠ "" ∧ r.key_file ≠ "") ∧
    (∀ (rules : List ConfigCard.RawRule),
      (∃ r ∈ rules, r.SSLEnable = true ∧ (r.CertFile = "" ∨ r.KeyFile = "")) →
      ∀ cfg, ConfigCard.getConfig rules ≠ .ok cfg) ∧
    (∀ (wsEnabled : Bool) (rules : List WsProxy.RawWsRule) (out : WsProxy.WsOut),
      WsProxy.getConfig wsEnabled rules = .ok out →
      ∀ r ∈ out.ws_proxy, r.ssl_enable = true → r.cert_file ≠ "" ∧ r.key_file ≠ "") ∧
    (∀ (wsEnabled : Bool) (rules : List WsProxy.RawWsRule),
      (∃ r ∈ rules, r.ssl_enable = true ∧ (r.cert_file = "" ∨ r.key_file = "")) →
      ∀ out, WsProxy.getConfig wsEnabled rules ≠ .ok out) := by
  refine ⟨?_, ?_, ?_, ?_⟩
  · intro rules cfg hok r hr hssl
    obtain ⟨hval, rfl⟩ := ConfigCard.getConfig_ok hok
    rw [List.map_map] at hr
    obtain ⟨raw, hraw, rfl⟩ := List.mem_map.mp hr
    have hv := (ConfigCard.validateRules_ok hval _ (List.mem_map.mpr ⟨raw, hraw, rfl⟩)).2.2
    constructor
    · intro h0; exact hv ⟨hssl, Or.inl h0⟩
    · intro h0; exact hv ⟨hssl, Or.inr h0⟩
  · rintro rules ⟨r0, hr0, hS, hck⟩ cfg hok
    obtain ⟨hval, -⟩ := ConfigCard.getConfig_ok hok
    exact (ConfigCard.validateRules_ok hval _ (List.mem_map.mpr ⟨r0, hr0, rfl⟩)).2.2 ⟨hS, hck⟩
  · intro wsEnabled rules out hok r hr hssl
    obtain ⟨hval, hproxy, -⟩ := WsProxy.wsGetConfig_ok hok
    rw [hproxy] at hr
    obtain ⟨raw, hraw, rfl⟩ := List.mem_map.mp hr
    have hv := (WsProxy.wsValidateRules_ok hval _ (List.mem_map.mpr ⟨raw, hraw, rfl⟩)).2
    constructor
    · intro h0; exact hv ⟨hssl, Or.inl h0⟩
    · intro h0; exact hv ⟨hssl, Or.inr h0⟩
  · rintro wsEnabled rules ⟨r0, hr0, hS, hck⟩ out hok
    obtain ⟨hval, -, -⟩ := WsProxy.wsGetConfig_ok hok
    exact (WsProxy.wsValidateRules_ok hval _ (List.mem_map.mpr ⟨r0, hr0, rfl⟩)).2 ⟨hS, hck⟩

/-- C7, witness: a TLS-enabled rule with both paths set round-trips with
non-empty cert and key paths. -/
theorem spec_C7_witness :
    (ConfigCard.mapRule (ConfigCard.cleanRule
      ⟨"", none, "127.0.0.1:8443", [], true, "/etc/ssl/c.pem", "/etc/ssl/k.pem",
        false, "", "", false, none, none, none, none,
        [⟨"", none, "", "/", "", false, [], "/www", false, [], [], [], [], []⟩]⟩)).cert_file
      ≠ "" :=
  (spec_C7.1
    [⟨"", none, "127.0.0.1:8443", [], true, "/etc/ssl/c.pem", "/etc/ssl/k.pem",
      false, "", "", false, none, none, none, none,
      [⟨"", none, "", "/", "", false, [], "/www", false, [], [], [], [], []⟩]⟩]
    [ConfigCard.mapRule (ConfigCard.cleanRule
      ⟨"", none, "127.0.0.1:8443", [], true, "/etc/ssl/c.pem", "/etc/ssl/k.pem",
        false, "", "", false, none, none, none, none,
        [⟨"", none, "", "/", "", false, [], "/www", false, [], [], [], [], []⟩]⟩)]
    (by rfl) _ (List.Mem.head _) rfl).1

/-- C2, counterexample: with stream proxying enabled, a DISABLED listen
server whose `proxy_pass` names no upstream (`"ghost"`) is skipped by the
validation loop, so `getConfig` returns a configuration violating the
claimed all-servers reference property. -/
theorem spec_C2_cex :
    (StreamProxy.getConfig true
        [⟨"up", "", false, [⟨"127.0.0.1:9000", 1, none, ""⟩]⟩]
        [⟨false, 0, "ghost", "", "", false⟩, ⟨true, 8080, "up", "", "", false⟩]).map
      (fun o => StreamProxy.specProxyPassOk o.stream) = .ok false := by rfl

/-- C2, amended: the reference check applies to enabled servers only:
every configuration returned by `StreamProxyConfig.getConfig` with stream
proxying enabled satisfies, for each ENABLED server, that `proxy_pass` is
non-empty and names an existing upstream; disabled servers are skipped by
the validation (`if (!sv.enabled) continue`). -/
theorem spec_C2 : ∀ (us : List StreamProxy.RawUpstream)
    (ss : List StreamProxy.RawListenServer) (out : StreamProxy.StreamOut),
    StreamProxy.getConfig true us ss = .ok out →
    ∀ sv ∈ out.stream.servers, sv.enabled = true →
      sv.proxy_pass ≠ "" ∧
      sv.proxy_pass ∈ out.stream.upstreams.map (fun u => u.name) := by
  intro us ss out hok sv hsv hen
  obtain ⟨-, hups, hsrv, hval⟩ := StreamProxy.getConfig_enabled_ok hok
  rw [hsrv] at hsv
  have h := StreamProxy.validateServers_ok hval sv hsv hen
  refine ⟨h.1, ?_⟩
  rw [hups]
  simpa using h.2

/-- C2, witness: a single enabled server referencing the sole upstream. -/
theorem spec_C2_witness :
    (StreamProxy.cleanListenServer ⟨true, 8080, "up", "", "", false⟩).proxy_pass ≠ "" :=
  (spec_C2 [⟨"up", "", false, [⟨"127.0.0.1:9000", 1, none, ""⟩]⟩]
    [⟨true, 8080, "up", "", "", false⟩]
    ⟨⟨true, [StreamProxy.cleanUpstream ⟨"up", "", false, [⟨"127.0.0.1:9000", 1, none, ""⟩]⟩],
      [StreamProxy.cleanListenServer ⟨true, 8080, "up", "", "", false⟩]⟩⟩
    (by rfl) _ (List.Mem.head _) rfl).1
